import Mathlib

/-!
Shallow embedding of the Task-Manager backend (Node/Express/Mongoose).

Sources embedded:
- `src/model/Task.js` (Task schema: status/priority enums, todo checklist, progress)
- `src/controller/TaskController.js` (dashboards, getTaskById, updateTask,
  updateTaskStatus, updateTaskCheckList, deleteTask)
- `src/controller/userController.js` (getUserById)
- `src/controller/authController.js` (signInUser, deleteUserProfile)
- `src/routes/taskRoutes.js` (middleware chains: protect / adminOnly)

Modelling conventions: MongoDB documents are Lean structures, collections are
lists, ObjectIds are strings with an explicit well-formedness check mirroring
`mongoose.Types.ObjectId.isValid`, JS `Math.round` on non-negative rationals is
floor(x + 1/2), and each Express handler is a pure function from the request
data and store to an explicit result describing the caller-visible outcome.
-/

namespace TaskManager

/-- Task status enum from the Task schema:
`enum: ["Pending", "In Progress", "Completed"]`. -/
inductive Status where
  | Pending
  | InProgress
  | Completed
deriving DecidableEq, Repr

/-- Task priority enum from the Task schema: `enum: ["Low", "Medium", "High"]`. -/
inductive Priority where
  | Low
  | Medium
  | High
deriving DecidableEq, Repr

/-- One checklist item (`TodoSchema`): `{ text: String, completed: Boolean }`. -/
structure TodoItem where
  text : String
  completed : Bool
deriving DecidableEq, Repr

/-- A Task document (`TaskSchema`).  `id` is the document's ObjectId rendered
as a string; `assignedTo` is the list of assigned users' ObjectId strings. -/
structure Task where
  id : String
  title : String
  description : String
  priority : Priority
  status : Status
  dueDate : Int
  assignedTo : List String
  createdBy : String
  attachments : List String
  todoCheckList : List TodoItem
  progress : Nat
deriving DecidableEq, Repr

/-- A User document (`UserSchema`): role is the raw role string
(`"admin"` or `"user"` in practice). -/
structure User where
  id : String
  name : String
  email : String
  password : String
  role : String
  profileImageUrl : String
deriving DecidableEq, Repr

/-- The authenticated actor attached by the `protect` middleware:
`req.user = { _id: decoded._id, role: decoded.role }`. -/
structure Actor where
  id : String
  role : String
deriving DecidableEq, Repr

/-- Hex digit check, used by the ObjectId well-formedness test. -/
def isHexDigit (c : Char) : Bool :=
  c.isDigit || ('a' ≤ c && c ≤ 'f') || ('A' ≤ c && c ≤ 'F')

/-- Models `mongoose.Types.ObjectId.isValid`: the canonical well-formed id is a
24-character hexadecimal string. -/
def isValidObjectId (s : String) : Bool :=
  s.length == 24 && s.data.all isHexDigit

/-- JS `Math.round (num / den)` for a non-negative rational num/den with
`den > 0`: round-half-up, i.e. `⌊num/den + 1/2⌋ = (2*num + den) / (2*den)`
in natural division. -/
def jsRound (num den : Nat) : Nat :=
  (2 * num + den) / (2 * den)

/-! ## Task Status Engine -/

/-- Core of `updateTaskCheckList` (TaskController.js lines 352-363): replace
the checklist, recompute `progress` from the completed count, and derive
`status` from `progress` (`100 → Completed`, `> 0 → In Progress`,
else `Pending`). -/
def applyChecklistUpdate (t : Task) (todoCheckList : List TodoItem) : Task :=
  let completed := (todoCheckList.filter (fun item => item.completed)).length
  let total := todoCheckList.length
  let progress := if total > 0 then jsRound (completed * 100) total else 0
  let status :=
    if progress == 100 then Status.Completed
    else if progress > 0 then Status.InProgress
    else Status.Pending
  { t with todoCheckList := todoCheckList, progress := progress, status := status }

/-- Core of `updateTaskStatus` (TaskController.js lines 316-321):
`task.status = req.body.status || task.status`; if the resulting status is
`Completed`, mark every checklist item completed and set `progress = 100`. -/
def applyStatusUpdate (t : Task) (requested : Option Status) : Task :=
  let t1 := { t with status := requested.getD t.status }
  if t1.status == Status.Completed then
    { t1 with
      todoCheckList := t1.todoCheckList.map (fun item => { item with completed := true }),
      progress := 100 }
  else t1

/-! ## Handlers for status / checklist updates -/

/-- Caller-visible outcome of the task-mutating handlers. -/
inductive TaskUpdateResult where
  /-- Status 404 `"Task not found"` -/
  | notFound
  /-- Status 403 `"Not authorized"` -/
  | forbidden
  /-- Status 200, carrying the saved task -/
  | ok (t : Task)
deriving DecidableEq, Repr

/-- Handler `updateTaskStatus` (TaskController.js lines 295-331): 404 on a
malformed or unknown id, 403 when the actor is neither assigned nor admin,
otherwise applies the status update and returns the saved task. -/
def updateTaskStatus (db : List Task) (actor : Actor) (id : String)
    (requested : Option Status) : TaskUpdateResult :=
  if !isValidObjectId id then .notFound
  else
    match db.find? (fun t => t.id == id) with
    | none => .notFound
    | some task =>
      let isAssigned := task.assignedTo.any (fun item => item == actor.id)
      if !isAssigned && actor.role != "admin" then .forbidden
      else .ok (applyStatusUpdate task requested)

/-- Handler `updateTaskCheckList` (TaskController.js lines 333-381): 404 on a
malformed or unknown id, 403 when the actor is neither in `assignedTo` nor
admin, otherwise replaces the checklist and recomputes progress/status. -/
def updateTaskCheckList (db : List Task) (actor : Actor) (id : String)
    (todoCheckList : List TodoItem) : TaskUpdateResult :=
  if !isValidObjectId id then .notFound
  else
    match db.find? (fun t => t.id == id) with
    | none => .notFound
    | some task =>
      if !(task.assignedTo.contains actor.id) && actor.role != "admin" then .forbidden
      else .ok (applyChecklistUpdate task todoCheckList)

/-! ## Spec-side rounding

The spec states `progress = round(100 * completed / total)`.  We read `round`
as rounding the exact rational to the nearest integer, half up (JS
`Math.round`), formalised with the rational floor. -/

/-- Round-half-up of a non-negative rational, as the spec's `round`. -/
def specRound (q : ℚ) : ℕ :=
  ⌊q + 1 / 2⌋₊

/-- Function `jsRound` computes exactly the spec's round-half-up of `num/den`. -/
theorem jsRound_eq_specRound (num den : Nat) (hden : 0 < den) :
    jsRound num den = specRound ((num : ℚ) / (den : ℚ)) := by
  unfold jsRound specRound
  have hden' : (den : ℚ) ≠ 0 := by exact_mod_cast hden.ne'
  have hq : (num : ℚ) / (den : ℚ) + 1 / 2 = ((2 * num + den : ℕ) : ℚ) / ((2 * den : ℕ) : ℚ) := by
    push_cast
    field_simp
    ring
  rw [hq, Nat.floor_div_nat, Nat.floor_natCast]

/-! ## Lookup handlers and id validation -/

/-- Query `Task.findById` with mongoose casting: a malformed id cannot be cast to
an ObjectId, so the query itself throws a `CastError` (caught by the handlers'
`catch` and surfaced as a 500); a well-formed id performs the lookup. -/
def findTaskById (db : List Task) (id : String) : Except String (Option Task) :=
  if isValidObjectId id then .ok (db.find? (fun t => t.id == id))
  else .error "CastError"

/-- Query `User.findById` with the same mongoose casting behaviour. -/
def findUserById (db : List User) (id : String) : Except String (Option User) :=
  if isValidObjectId id then .ok (db.find? (fun u => u.id == id))
  else .error "CastError"

/-- Caller-visible outcome of a lookup handler. -/
inductive LookupResult (α : Type) where
  /-- Status 404 `"... not found"` -/
  | notFound
  /-- Status 500 `"Server error"` carrying the underlying error message -/
  | serverError (msg : String)
  /-- Status 200 with the entity -/
  | ok (x : α)
deriving DecidableEq, Repr

/-- Handler `getTaskById` (TaskController.js lines 207-228): rejects a
malformed id with 404 *before* querying, then 404 on a miss. -/
def getTaskById (db : List Task) (id : String) : LookupResult Task :=
  if !isValidObjectId id then .notFound
  else
    match findTaskById db id with
    | .error e => .serverError e
    | .ok none => .notFound
    | .ok (some t) => .ok t

/-- Handler `getUserById` (userController.js lines 43-57): queries directly
with no id-validity pre-check, so a malformed id raises a `CastError` inside
the `try` and is returned as a 500 server error. -/
def getUserById (db : List User) (id : String) : LookupResult User :=
  match findUserById db id with
  | .error e => .serverError e
  | .ok none => .notFound
  | .ok (some u) => .ok u

/-! ## General task update, deletion, and route middleware -/

/-- The general-update request body: `Object.assign(task, req.body)` merges
whatever core fields the caller supplies. -/
structure TaskUpdateBody where
  title : Option String
  description : Option String
deriving DecidableEq, Repr

/-- Merge `Object.assign(task, req.body)`: present keys overwrite, absent keys keep
the stored value. -/
def objectAssign (t : Task) (b : TaskUpdateBody) : Task :=
  { t with
    title := b.title.getD t.title,
    description := b.description.getD t.description }

/-- Handler `updateTask` (TaskController.js lines 267-293): 404 on a malformed
or unknown id, otherwise merges the body and saves.  Note: the handler never
consults `req.user`. -/
def updateTask (db : List Task) (id : String) (b : TaskUpdateBody) : TaskUpdateResult :=
  if !isValidObjectId id then .notFound
  else
    match db.find? (fun t => t.id == id) with
    | none => .notFound
    | some task => .ok (objectAssign task b)

/-- Caller-visible outcome of the delete route. -/
inductive DeleteTaskResult where
  /-- Status 403 `"Access denied, Only for admin"` from the `adminOnly` middleware -/
  | adminDenied
  /-- Status 404 `"Task not found"` -/
  | notFound
  /-- Status 200 `"Task deleted successfully"` -/
  | deleted
deriving DecidableEq, Repr

/-- Handler body of `deleteTask` (TaskController.js lines 383-404). -/
def deleteTask (db : List Task) (id : String) : DeleteTaskResult :=
  if !isValidObjectId id then .notFound
  else
    match db.find? (fun t => t.id == id) with
    | none => .notFound
    | some _ => .deleted

/-- Middleware `adminOnly` (middleware/auth.js): passes iff the actor's role
is the string `"admin"`. -/
def adminOnly (actor : Actor) : Bool :=
  actor.role == "admin"

/-- Route `PUT /api/task/:id` (taskRoutes.js line 22):
`router.put("/:id", protect, updateTask)` — the chain holds `protect` only,
with no `adminOnly`, so the handler runs for every authenticated actor. -/
def routeUpdateTask (db : List Task) (_actor : Actor) (id : String)
    (b : TaskUpdateBody) : TaskUpdateResult :=
  updateTask db id b

/-- Route `DELETE /api/task/:id` (taskRoutes.js line 25):
`router.delete("/:id", protect, adminOnly, deleteTask)`. -/
def routeDeleteTask (db : List Task) (actor : Actor) (id : String) : DeleteTaskResult :=
  if adminOnly actor then deleteTask db id else .adminDenied

/-! ## Dashboard aggregation -/

/-- Count `Task.countDocuments()` over a scope — the dashboard's `totalTasks`. -/
def countDocuments (ts : List Task) : Nat :=
  ts.length

/-- Scope count by status (`Task.countDocuments({ status })` within scope). -/
def countStatus (ts : List Task) (s : Status) : Nat :=
  (ts.filter (fun t => t.status == s)).length

/-- The `$group: { _id: "$status", count: { $sum: 1 } }` aggregation: one
`(status, count)` pair per status value present in the scope. -/
def taskDistributionRaw (ts : List Task) : List (Status × Nat) :=
  ((ts.map (fun t => t.status)).dedup).map (fun s => (s, countStatus ts s))

/-- Lookup `taskDistributionRaw.find(item => item._id === status)?.count || 0`. -/
def lookupCount (raw : List (Status × Nat)) (s : Status) : Nat :=
  match raw.find? (fun p => p.1 == s) with
  | some p => p.2
  | none => 0

/-- The dashboard's `taskDistribution` object: keys are the status names with
internal whitespace stripped, plus `All`. -/
structure TaskDistribution where
  pendingKey : Nat
  inProgressKey : Nat
  completedKey : Nat
  allKey : Nat
deriving DecidableEq, Repr

/-- Distribution `taskDistribution` as computed by `getDashboardData` /
`getUserDashboardData` (TaskController.js lines 17-28 and 89-102) over a
scope `ts`: reduce over the three status names with default 0, then
`taskDistribution["All"] = totalTasks` where `totalTasks = countDocuments`
on the scope. -/
def taskDistribution (ts : List Task) : TaskDistribution :=
  let raw := taskDistributionRaw ts
  { pendingKey := lookupCount raw .Pending,
    inProgressKey := lookupCount raw .InProgress,
    completedKey := lookupCount raw .Completed,
    allKey := ts.length }

/-- The admin dashboard's scope is the whole task collection. -/
def globalDashboardDistribution (db : List Task) : TaskDistribution :=
  taskDistribution db

/-- The user dashboard's scope: `{ assignedTo: { $in: [userId] } }`. -/
def userScope (db : List Task) (userId : String) : List Task :=
  db.filter (fun t => t.assignedTo.contains userId)

/-- Distribution of `getUserDashboardData` for an actor. -/
def userDashboardDistribution (db : List Task) (userId : String) : TaskDistribution :=
  taskDistribution (userScope db userId)

/-! ## User self-deletion cascade -/

/-- Task-side effect of `deleteUserProfile` (authController.js lines 170-177):
an admin's deletion runs `Task.deleteMany({ createdBy: user._id })`; a
non-admin's deletion runs
`Task.updateMany({ assignedTo: user._id }, { $pull: { assignedTo: user._id } })`. -/
def deleteUserCascade (tasks : List Task) (u : User) : List Task :=
  if u.role == "admin" then
    tasks.filter (fun t => !(t.createdBy == u.id))
  else
    tasks.map (fun t =>
      if t.assignedTo.contains u.id then
        { t with assignedTo := t.assignedTo.filter (fun a => !(a == u.id)) }
      else t)

/-! ## Sign-in -/

/-- A caller-visible error response: HTTP status plus message. -/
structure ApiError where
  status : Nat
  message : String
deriving DecidableEq, Repr

/-- Caller-visible outcome of `signInUser`. -/
inductive SignInResult where
  | err (e : ApiError)
  /-- Status 200 with the user's public fields and a token -/
  | ok (u : User)
deriving DecidableEq, Repr

/-- Handler `signInUser` (authController.js lines 56-92).  `compare` models
`bcrypt.compare(candidate, storedHash)`.  Empty strings are the falsy values
of the `!email || !password` guard. -/
def signInUser (compare : String → String → Bool) (db : List User)
    (email password : String) : SignInResult :=
  if email == "" || password == "" then
    .err ⟨400, "Email and password are required"⟩
  else
    match db.find? (fun u => u.email == email) with
    | none => .err ⟨401, "Invalid credentials"⟩
    | some user =>
      if compare password user.password then .ok user
      else .err ⟨401, "Invalid credentials"⟩

/-! ## Concrete sample data (used by witnesses and counterexamples) -/

/-- A well-formed ObjectId string for a sample task. -/
def sampleTaskId : String := "aaaaaaaaaaaaaaaaaaaaaaaa"

/-- A sample task assigned to user `bbbb…`, created by `cccc…`. -/
def sampleTask : Task :=
  { id := sampleTaskId, title := "Write docs", description := "api docs",
    priority := .High, status := .Pending, dueDate := 0,
    assignedTo := ["bbbbbbbbbbbbbbbbbbbbbbbb"],
    createdBy := "cccccccccccccccccccccccc", attachments := [],
    todoCheckList := [⟨"draft", true⟩, ⟨"review", false⟩], progress := 0 }

/-- A sample admin actor. -/
def sampleAdminActor : Actor := ⟨"dddddddddddddddddddddddd", "admin"⟩

/-- A sample non-admin actor who is assigned to `sampleTask`. -/
def sampleAssignedActor : Actor := ⟨"bbbbbbbbbbbbbbbbbbbbbbbb", "user"⟩

/-- A sample non-admin actor who is not assigned to `sampleTask`. -/
def sampleStrangerActor : Actor := ⟨"eeeeeeeeeeeeeeeeeeeeeeee", "user"⟩

/-- A sample admin user record (for the deletion cascade). -/
def sampleAdminUser : User :=
  ⟨"dddddddddddddddddddddddd", "Admin", "admin@example.com",
    "hashedpw", "admin", ""⟩

/-- A sample non-admin user record. -/
def sampleNonAdminUser : User :=
  ⟨"bbbbbbbbbbbbbbbbbbbbbbbb", "John", "user@example.com",
    "hashedpw2", "user", ""⟩

/-- A task created by the sample admin. -/
def ownedTask : Task :=
  { sampleTask with
    id := "f0f0f0f0f0f0f0f0f0f0f0f0",
    createdBy := "dddddddddddddddddddddddd",
    assignedTo := [] }

/-- A task the sample admin did not create but is assigned to
(together with user `bbbb…`). -/
def assignedOnlyTask : Task :=
  { sampleTask with
    id := "0123456789abcdef01234567",
    createdBy := "cccccccccccccccccccccccc",
    assignedTo := ["dddddddddddddddddddddddd", "bbbbbbbbbbbbbbbbbbbbbbbb"] }

/-! ## Helper lemmas -/

/-- The two conditional chains deriving status from progress agree: the
code checks `100` first then `> 0`, the spec checks `0` then `100`. -/
theorem statusOfProgress_eq (p : Nat) :
    (if p == 100 then Status.Completed
     else if p > 0 then Status.InProgress
     else Status.Pending) =
    (if p = 0 then Status.Pending
     else if p = 100 then Status.Completed
     else Status.InProgress) := by
  by_cases h100 : p = 100
  · subst h100; simp
  · by_cases h0 : p = 0
    · subst h0; simp
    · have hpos : 0 < p := Nat.pos_of_ne_zero h0
      simp [h0, h100, hpos]

/-- When the result of `applyStatusUpdate` is `Completed`, the checklist is
fully completed and progress is 100. -/
theorem applyStatusUpdate_completed (t : Task) (req : Option Status)
    (h : (applyStatusUpdate t req).status = Status.Completed) :
    (applyStatusUpdate t req).progress = 100 ∧
    (applyStatusUpdate t req).todoCheckList.all (fun item => item.completed) = true := by
  unfold applyStatusUpdate at *
  by_cases hc : req.getD t.status = Status.Completed
  · simp [hc, List.all_eq_true]
  · simp [hc] at h

/-! ## Claim theorems -/

/-- C1.  `updateTaskCheckList` replaces the task's checklist and sets
`progress = round(100 * completed / total)` (with `completed` the number of
items whose `completed` flag is true and `total` the list length), `0` for the
empty checklist; and the resulting status is `Pending` when progress is 0,
`Completed` when it is 100, and `In Progress` otherwise. -/
theorem checklist_update_progress_status (t : Task) (cl : List TodoItem) :
    (applyChecklistUpdate t cl).todoCheckList = cl ∧
    (applyChecklistUpdate t cl).progress =
      (if cl.length = 0 then 0
       else specRound ((100 * ((cl.filter (fun item => item.completed)).length : ℚ)) /
             (cl.length : ℚ))) ∧
    (applyChecklistUpdate t cl).status =
      (if (applyChecklistUpdate t cl).progress = 0 then Status.Pending
       else if (applyChecklistUpdate t cl).progress = 100 then Status.Completed
       else Status.InProgress) := by
  refine ⟨rfl, ?_, ?_⟩
  · by_cases h : cl.length = 0
    · simp [applyChecklistUpdate, h]
    · have hpos : 0 < cl.length := Nat.pos_of_ne_zero h
      have : (applyChecklistUpdate t cl).progress =
          jsRound ((cl.filter (fun item => item.completed)).length * 100) cl.length := by
        simp [applyChecklistUpdate, hpos]
      rw [this, if_neg h, jsRound_eq_specRound _ _ hpos]
      congr 1
      push_cast
      ring
  · show (if _ then Status.Completed else if _ then Status.InProgress else Status.Pending) = _
    exact statusOfProgress_eq _

/-- C2.  Whenever `updateTaskStatus` succeeds and the saved task's status is
`Completed`, every checklist item of the saved task is completed and its
progress is 100, regardless of the prior checklist state. -/
theorem status_update_completed_forces_sync
    (db : List Task) (actor : Actor) (id : String) (requested : Option Status)
    (t' : Task)
    (h : updateTaskStatus db actor id requested = .ok t')
    (hstatus : t'.status = Status.Completed) :
    t'.progress = 100 ∧
    t'.todoCheckList.all (fun item => item.completed) = true := by
  unfold updateTaskStatus at h
  split at h
  · exact absurd h (by simp)
  · split at h
    · exact absurd h (by simp)
    · dsimp only at h
      split at h
      · exact absurd h (by simp)
      · rw [TaskUpdateResult.ok.injEq] at h
        subst h
        exact applyStatusUpdate_completed _ _ hstatus

/-- Witness for C2 at a concrete input: an admin sets `sampleTask` to
`Completed`; the saved task has progress 100 and a fully completed checklist. -/
theorem status_update_completed_forces_sync_witness :
    (applyStatusUpdate sampleTask (some Status.Completed)).progress = 100 ∧
    (applyStatusUpdate sampleTask (some Status.Completed)).todoCheckList.all
      (fun item => item.completed) = true :=
  status_update_completed_forces_sync [sampleTask] sampleAdminActor sampleTaskId
    (some Status.Completed) (applyStatusUpdate sampleTask (some Status.Completed))
    (by decide) (by decide)

/-- C8.  A status update requesting `Pending` or `In Progress` keeps the
task's progress and checklist unchanged (no recomputation), and a request
with no status supplied keeps the status unchanged. -/
theorem status_update_frame (t : Task) (s : Status)
    (hs : s = Status.Pending ∨ s = Status.InProgress) :
    (applyStatusUpdate t (some s)).progress = t.progress ∧
    (applyStatusUpdate t (some s)).todoCheckList = t.todoCheckList ∧
    (applyStatusUpdate t (some s)).status = s ∧
    (applyStatusUpdate t none).status = t.status := by
  have hnone : (applyStatusUpdate t none).status = t.status := by
    by_cases h : t.status = Status.Completed <;>
      simp [applyStatusUpdate, h]
  rcases hs with h | h <;> subst h <;> exact ⟨rfl, rfl, rfl, hnone⟩

/-- Witness for C8 at a concrete input: requesting `In Progress` on
`sampleTask` leaves progress and checklist untouched; supplying no status
leaves the status untouched. -/
theorem status_update_frame_witness :
    (applyStatusUpdate sampleTask (some Status.InProgress)).progress = sampleTask.progress ∧
    (applyStatusUpdate sampleTask (some Status.InProgress)).todoCheckList = sampleTask.todoCheckList ∧
    (applyStatusUpdate sampleTask (some Status.InProgress)).status = Status.InProgress ∧
    (applyStatusUpdate sampleTask none).status = sampleTask.status :=
  status_update_frame sampleTask Status.InProgress (Or.inr rfl)

/-- C9.  The checklist update always writes a progress value bounded by 100
(progress is a natural number in the model, so it is a non-negative integer),
and the status update either leaves progress unchanged or sets it to exactly
100 — neither operation can write a value outside `[0, 100]`. -/
theorem progress_always_in_bounds (t : Task) (cl : List TodoItem)
    (req : Option Status) :
    (applyChecklistUpdate t cl).progress ≤ 100 ∧
    ((applyStatusUpdate t req).progress = t.progress ∨
     (applyStatusUpdate t req).progress = 100) := by
  constructor
  · have hle : (cl.filter (fun item => item.completed)).length ≤ cl.length :=
      List.length_filter_le _ _
    by_cases h : cl.length = 0
    · simp [applyChecklistUpdate, h]
    · have hpos : 0 < cl.length := Nat.pos_of_ne_zero h
      have : (applyChecklistUpdate t cl).progress =
          jsRound ((cl.filter (fun item => item.completed)).length * 100) cl.length := by
        simp [applyChecklistUpdate, hpos]
      rw [this]
      unfold jsRound
      have h2 : 0 < 2 * cl.length := by omega
      rw [Nat.div_le_iff_le_mul_add_pred h2]
      omega
  · by_cases h : req.getD t.status = Status.Completed
    · exact Or.inr (by simp [applyStatusUpdate, h])
    · exact Or.inl (by simp [applyStatusUpdate, h])

/-- C3.  For an existing task and an actor who is neither admin nor listed in
the task's `assignedTo`, both the status update and the checklist update are
rejected with the 403 authorization failure — in particular neither returns
the not-found outcome. -/
theorem nonadmin_nonassignee_rejected
    (db : List Task) (actor : Actor) (id : String) (task : Task)
    (hvalid : isValidObjectId id = true)
    (hfind : db.find? (fun t => t.id == id) = some task)
    (hrole : actor.role ≠ "admin")
    (hmem : actor.id ∉ task.assignedTo)
    (requested : Option Status) (cl : List TodoItem) :
    updateTaskStatus db actor id requested = .forbidden ∧
    updateTaskCheckList db actor id cl = .forbidden ∧
    updateTaskStatus db actor id requested ≠ .notFound ∧
    updateTaskCheckList db actor id cl ≠ .notFound := by
  have hany : (task.assignedTo.any fun item => item == actor.id) = false := by
    simp only [List.any_eq_true, beq_iff_eq, Bool.eq_false_iff, ne_eq]
    push_neg
    intro x hx
    exact fun he => hmem (he ▸ hx)
  have hcont : task.assignedTo.contains actor.id = false := by
    simpa using hmem
  have hrole' : (actor.role != "admin") = true := by
    simpa using hrole
  have h1 : updateTaskStatus db actor id requested = .forbidden := by
    unfold updateTaskStatus
    simp [hvalid, hfind, hany, hrole']
  have h2 : updateTaskCheckList db actor id cl = .forbidden := by
    unfold updateTaskCheckList
    simp [hvalid, hfind, hcont, hrole', hmem]
  refine ⟨h1, h2, ?_, ?_⟩ <;> simp [h1, h2]

/-- Witness for C3 at a concrete input: a non-admin actor who is not in
`sampleTask.assignedTo` gets 403 from both update operations. -/
theorem nonadmin_nonassignee_rejected_witness :
    updateTaskStatus [sampleTask] sampleStrangerActor sampleTaskId
      (some Status.Completed) = .forbidden ∧
    updateTaskCheckList [sampleTask] sampleStrangerActor sampleTaskId [] = .forbidden ∧
    updateTaskStatus [sampleTask] sampleStrangerActor sampleTaskId
      (some Status.Completed) ≠ .notFound ∧
    updateTaskCheckList [sampleTask] sampleStrangerActor sampleTaskId [] ≠ .notFound :=
  nonadmin_nonassignee_rejected [sampleTask] sampleStrangerActor sampleTaskId
    sampleTask (by decide) (by decide) (by decide) (by decide)
    (some Status.Completed) []

/-- Counterexample to C4 as stated: a non-admin actor's general task update
is *not* rejected — the route `PUT /api/task/:id` carries no `adminOnly`
middleware and the handler checks no role, so the update succeeds with 200. -/
theorem general_update_not_admin_only_cex :
    sampleStrangerActor.role ≠ "admin" ∧
    routeUpdateTask [sampleTask] sampleStrangerActor sampleTaskId
      ⟨some "Hijacked", none⟩ =
      .ok (objectAssign sampleTask ⟨some "Hijacked", none⟩) := by
  constructor
  · decide
  · rfl

/-- C4 amended.  Task deletion is admin-only: the `adminOnly` middleware
rejects every non-admin with 403 before the handler runs.  The general task
update carries no role restriction: its outcome is independent of the actor,
and a non-admin updating an existing task succeeds. -/
theorem delete_admin_only_update_unrestricted
    (db : List Task) (actor other : Actor) (id : String) (b : TaskUpdateBody)
    (task : Task)
    (hrole : actor.role ≠ "admin")
    (hvalid : isValidObjectId id = true)
    (hfind : db.find? (fun t => t.id == id) = some task) :
    routeDeleteTask db actor id = .adminDenied ∧
    routeUpdateTask db actor id b = routeUpdateTask db other id b ∧
    routeUpdateTask db actor id b = .ok (objectAssign task b) := by
  have hrole' : (actor.role == "admin") = false := by simpa using hrole
  refine ⟨?_, rfl, ?_⟩
  · unfold routeDeleteTask adminOnly
    simp [hrole']
  · unfold routeUpdateTask updateTask
    simp [hvalid, hfind]

/-- Witness for the amended C4 at a concrete input: the non-admin stranger is
denied deletion but the same actor's general update of `sampleTask` goes
through. -/
theorem delete_admin_only_update_unrestricted_witness :
    routeDeleteTask [sampleTask] sampleStrangerActor sampleTaskId = .adminDenied ∧
    routeUpdateTask [sampleTask] sampleStrangerActor sampleTaskId ⟨some "X", none⟩ =
      routeUpdateTask [sampleTask] sampleAdminActor sampleTaskId ⟨some "X", none⟩ ∧
    routeUpdateTask [sampleTask] sampleStrangerActor sampleTaskId ⟨some "X", none⟩ =
      .ok (objectAssign sampleTask ⟨some "X", none⟩) :=
  delete_admin_only_update_unrestricted [sampleTask] sampleStrangerActor
    sampleAdminActor sampleTaskId ⟨some "X", none⟩ sampleTask
    (by decide) (by decide) (by decide)

/-- Counterexample to C5 as stated: a malformed id on the *user* lookup is
not treated as NotFound — `getUserById` performs no id pre-validation, so the
malformed id reaches the store, raises a `CastError`, and surfaces as a 500
storage error. -/
theorem malformed_user_id_not_notFound_cex :
    isValidObjectId "bad-id" = false ∧
    getUserById [] "bad-id" = .serverError "CastError" ∧
    getUserById [] "bad-id" ≠ (.notFound : LookupResult User) := by
  refine ⟨by decide, rfl, by decide⟩

/-- C5 amended.  Every *task* lookup path (getTaskById, updateTask,
updateTaskStatus, updateTaskCheckList, deleteTask) validates the id first
and returns NotFound on a malformed id — identical to a well-formed id that
matches nothing; the *user* lookup performs no such pre-check, so a malformed
user id surfaces as a storage error (500 `CastError`), not NotFound. -/
theorem malformed_id_outcomes
    (tdb : List Task) (udb : List User) (id : String) (actor : Actor)
    (b : TaskUpdateBody) (requested : Option Status) (cl : List TodoItem)
    (hbad : isValidObjectId id = false) :
    getTaskById tdb id = .notFound ∧
    updateTask tdb id b = .notFound ∧
    updateTaskStatus tdb actor id requested = .notFound ∧
    updateTaskCheckList tdb actor id cl = .notFound ∧
    deleteTask tdb id = .notFound ∧
    getUserById udb id = .serverError "CastError" := by
  unfold getTaskById updateTask updateTaskStatus updateTaskCheckList deleteTask
    getUserById findUserById
  simp [hbad]

/-- Witness for the amended C5 at the concrete malformed id `"bad-id"`. -/
theorem malformed_id_outcomes_witness :
    getTaskById [sampleTask] "bad-id" = .notFound ∧
    updateTask [sampleTask] "bad-id" ⟨none, none⟩ = .notFound ∧
    updateTaskStatus [sampleTask] sampleAdminActor "bad-id" none = .notFound ∧
    updateTaskCheckList [sampleTask] sampleAdminActor "bad-id" [] = .notFound ∧
    deleteTask [sampleTask] "bad-id" = .notFound ∧
    getUserById [sampleAdminUser] "bad-id" = .serverError "CastError" :=
  malformed_id_outcomes [sampleTask] [sampleAdminUser] "bad-id" sampleAdminActor
    ⟨none, none⟩ none [] (by decide)

/-- Cons step for the default-0 lookup when the head key matches. -/
theorem lookupCount_cons_pos (p : Status × Nat) (raw : List (Status × Nat))
    (s : Status) (h : (p.1 == s) = true) : lookupCount (p :: raw) s = p.2 := by
  unfold lookupCount
  simp only [List.find?_cons, h]

/-- Cons step for the default-0 lookup when the head key differs. -/
theorem lookupCount_cons_neg (p : Status × Nat) (raw : List (Status × Nat))
    (s : Status) (h : (p.1 == s) = false) :
    lookupCount (p :: raw) s = lookupCount raw s := by
  unfold lookupCount
  simp only [List.find?_cons, h]

/-- Looking up a present key in the association list built by pairing each
status with its count yields that count. -/
theorem lookupCount_map_mem (l : List Status) (f : Status → Nat) (s : Status)
    (h : s ∈ l) : lookupCount (l.map (fun y => (y, f y))) s = f s := by
  induction l with
  | nil => cases h
  | cons a l ih =>
    rw [List.map_cons]
    by_cases ha : a = s
    · rw [lookupCount_cons_pos (a, f a) (l.map fun y => (y, f y)) s
        (by simp [ha]), ha]
    · have ha' : (a == s) = false := by simpa using ha
      have hs : s ∈ l := by
        cases h with
        | head => exact absurd rfl ha
        | tail _ h => exact h
      rw [lookupCount_cons_neg (a, f a) (l.map fun y => (y, f y)) s ha']
      exact ih hs

/-- Looking up an absent key in the same association list yields 0. -/
theorem lookupCount_map_not_mem (l : List Status) (f : Status → Nat) (s : Status)
    (h : s ∉ l) : lookupCount (l.map (fun y => (y, f y))) s = 0 := by
  induction l with
  | nil => rfl
  | cons a l ih =>
    have ha : (a == s) = false :=
      beq_eq_false_iff_ne.mpr (fun he => h (he ▸ List.mem_cons_self a l))
    have hs : s ∉ l := fun hs => h (List.mem_cons_of_mem a hs)
    rw [List.map_cons, lookupCount_cons_neg (a, f a) (l.map fun y => (y, f y)) s ha]
    exact ih hs

/-- The default-0 lookup on the grouped aggregation recovers exactly the
per-status count of the scope. -/
theorem lookupCount_taskDistributionRaw (ts : List Task) (s : Status) :
    lookupCount (taskDistributionRaw ts) s = countStatus ts s := by
  unfold taskDistributionRaw
  by_cases hs : s ∈ (ts.map (fun t => t.status)).dedup
  · exact lookupCount_map_mem _ _ _ hs
  · rw [lookupCount_map_not_mem _ _ _ hs]
    rw [List.mem_dedup] at hs
    unfold countStatus
    symm
    rw [List.length_eq_zero, List.filter_eq_nil_iff]
    intro t ht
    simp only [beq_iff_eq]
    exact fun he => hs (List.mem_map.mpr ⟨t, ht, he⟩)

/-- Every task's status is one of the three enum values, so the three
per-status counts partition the scope. -/
theorem countStatus_partition (ts : List Task) :
    countStatus ts .Pending + countStatus ts .InProgress + countStatus ts .Completed
      = countDocuments ts := by
  induction ts with
  | nil => rfl
  | cons t ts ih =>
    unfold countStatus countDocuments at ih ⊢
    cases h : t.status <;> simp [List.filter_cons, h] <;> omega

/-- The full distribution facts for one scope. -/
theorem taskDistribution_spec (ts : List Task) :
    (taskDistribution ts).pendingKey = countStatus ts .Pending ∧
    (taskDistribution ts).inProgressKey = countStatus ts .InProgress ∧
    (taskDistribution ts).completedKey = countStatus ts .Completed ∧
    (taskDistribution ts).allKey = countDocuments ts ∧
    (taskDistribution ts).pendingKey + (taskDistribution ts).inProgressKey +
      (taskDistribution ts).completedKey = (taskDistribution ts).allKey := by
  have hp := lookupCount_taskDistributionRaw ts .Pending
  have hi := lookupCount_taskDistributionRaw ts .InProgress
  have hc := lookupCount_taskDistributionRaw ts .Completed
  refine ⟨hp, hi, hc, rfl, ?_⟩
  show lookupCount _ _ + lookupCount _ _ + lookupCount _ _ = ts.length
  rw [hp, hi, hc]
  exact countStatus_partition ts

/-- C6.  In both the global admin scope and a user's scope, the dashboard's
`taskDistribution` maps the `Pending` / `InProgress` / `Completed` keys to the
per-status counts of the scope (0 when a status is absent from the grouped
aggregation), its `All` key equals the scope's `totalTasks`, and the three
status buckets sum to `totalTasks`. -/
theorem dashboard_distribution_correct (db : List Task) (userId : String) :
    ((globalDashboardDistribution db).pendingKey = countStatus db .Pending ∧
     (globalDashboardDistribution db).inProgressKey = countStatus db .InProgress ∧
     (globalDashboardDistribution db).completedKey = countStatus db .Completed ∧
     (globalDashboardDistribution db).allKey = countDocuments db ∧
     (globalDashboardDistribution db).pendingKey +
       (globalDashboardDistribution db).inProgressKey +
       (globalDashboardDistribution db).completedKey =
       (globalDashboardDistribution db).allKey) ∧
    ((userDashboardDistribution db userId).pendingKey =
       countStatus (userScope db userId) .Pending ∧
     (userDashboardDistribution db userId).inProgressKey =
       countStatus (userScope db userId) .InProgress ∧
     (userDashboardDistribution db userId).completedKey =
       countStatus (userScope db userId) .Completed ∧
     (userDashboardDistribution db userId).allKey =
       countDocuments (userScope db userId) ∧
     (userDashboardDistribution db userId).pendingKey +
       (userDashboardDistribution db userId).inProgressKey +
       (userDashboardDistribution db userId).completedKey =
       (userDashboardDistribution db userId).allKey) :=
  ⟨taskDistribution_spec db, taskDistribution_spec (userScope db userId)⟩

/-- Counterexample to C7 as stated: an admin with one owned task and one task
where they are merely assigned deletes their account; the owned task is
deleted but the merely-assigned task persists *with the admin's id still in
its `assignedTo` list* — the `$pull` cascade only runs in the non-admin
branch. -/
theorem admin_cascade_keeps_assignment_cex :
    sampleAdminUser.role = "admin" ∧
    deleteUserCascade [ownedTask, assignedOnlyTask] sampleAdminUser =
      [assignedOnlyTask] ∧
    sampleAdminUser.id ∈ assignedOnlyTask.assignedTo := by
  decide

/-- C7 amended.  When a user deletes their own account: if they are an admin,
every task they created is deleted and every other task persists entirely
unchanged — in particular their id is *not* removed from `assignedTo` lists;
if they are a non-admin, no task is deleted (the task count is preserved) and
their id is removed from every task's `assignedTo` list. -/
theorem delete_user_cascade_effects (tasks : List Task) (u : User) :
    (u.role = "admin" →
      (∀ t ∈ tasks, t.createdBy = u.id → t ∉ deleteUserCascade tasks u) ∧
      (∀ t ∈ tasks, t.createdBy ≠ u.id → t ∈ deleteUserCascade tasks u)) ∧
    (u.role ≠ "admin" →
      (deleteUserCascade tasks u).length = tasks.length ∧
      (∀ t' ∈ deleteUserCascade tasks u, u.id ∉ t'.assignedTo)) := by
  constructor
  · intro hrole
    have hbranch : deleteUserCascade tasks u =
        tasks.filter (fun t => !(t.createdBy == u.id)) := by
      unfold deleteUserCascade
      simp [hrole]
    rw [hbranch]
    constructor
    · intro t ht hc hmem
      have := (List.mem_filter.mp hmem).2
      simp [hc] at this
    · intro t ht hc
      exact List.mem_filter.mpr ⟨ht, by simp [hc]⟩
  · intro hrole
    have hrole' : (u.role == "admin") = false := by simpa using hrole
    have hbranch : deleteUserCascade tasks u =
        tasks.map (fun t =>
          if t.assignedTo.contains u.id then
            { t with assignedTo := t.assignedTo.filter (fun a => !(a == u.id)) }
          else t) := by
      unfold deleteUserCascade
      simp [hrole']
    rw [hbranch]
    refine ⟨List.length_map _ _, ?_⟩
    intro t' ht'
    obtain ⟨t, ht, rfl⟩ := List.mem_map.mp ht'
    by_cases hc : t.assignedTo.contains u.id = true
    · rw [if_pos hc]
      intro hmem
      have := (List.mem_filter.mp hmem).2
      simp at this
    · rw [if_neg hc]
      intro hmem
      exact hc (by simpa using hmem)

/-- Witness for the amended C7 at concrete inputs: the admin's owned task is
gone and the merely-assigned task persists; a non-admin's deletion keeps both
tasks. -/
theorem delete_user_cascade_effects_witness :
    ownedTask ∉ deleteUserCascade [ownedTask, assignedOnlyTask] sampleAdminUser ∧
    assignedOnlyTask ∈ deleteUserCascade [ownedTask, assignedOnlyTask] sampleAdminUser ∧
    (deleteUserCascade [ownedTask, assignedOnlyTask] sampleNonAdminUser).length = 2 :=
  have h := delete_user_cascade_effects [ownedTask, assignedOnlyTask] sampleAdminUser
  have h2 := delete_user_cascade_effects [ownedTask, assignedOnlyTask] sampleNonAdminUser
  ⟨(h.1 rfl).1 ownedTask (by decide) rfl,
   (h.1 rfl).2 assignedOnlyTask (by decide) (by decide),
   (h2.2 (by decide)).1⟩

/-- C10.  Sign-in with an unregistered email and sign-in with a registered
email but a failing password comparison produce the identical caller-visible
outcome: status 401 with message `"Invalid credentials"` — the response does
not reveal whether the email is registered. -/
theorem signin_uniform_invalid_credentials
    (compare : String → String → Bool) (db1 db2 : List User)
    (e1 p1 e2 p2 : String) (u : User)
    (he1 : e1 ≠ "") (hp1 : p1 ≠ "")
    (hnone : db1.find? (fun v => v.email == e1) = none)
    (he2 : e2 ≠ "") (hp2 : p2 ≠ "")
    (hsome : db2.find? (fun v => v.email == e2) = some u)
    (hbad : compare p2 u.password = false) :
    signInUser compare db1 e1 p1 = .err ⟨401, "Invalid credentials"⟩ ∧
    signInUser compare db2 e2 p2 = .err ⟨401, "Invalid credentials"⟩ ∧
    signInUser compare db1 e1 p1 = signInUser compare db2 e2 p2 := by
  have he1' : (e1 == "") = false := by simpa using he1
  have hp1' : (p1 == "") = false := by simpa using hp1
  have he2' : (e2 == "") = false := by simpa using he2
  have hp2' : (p2 == "") = false := by simpa using hp2
  have h1 : signInUser compare db1 e1 p1 = .err ⟨401, "Invalid credentials"⟩ := by
    unfold signInUser
    simp [he1', hp1', hnone]
  have h2 : signInUser compare db2 e2 p2 = .err ⟨401, "Invalid credentials"⟩ := by
    unfold signInUser
    simp [he2', hp2', hsome, hbad]
  exact ⟨h1, h2, h1.trans h2.symm⟩

/-- Witness for C10 at concrete inputs: an email matching no user versus the
sample user's email with a wrong password, under string-equality password
comparison. -/
theorem signin_uniform_invalid_credentials_witness :
    signInUser (fun p h => p == h) [] "ghost@example.com" "pw" =
      .err ⟨401, "Invalid credentials"⟩ ∧
    signInUser (fun p h => p == h) [sampleNonAdminUser] "user@example.com" "wrong" =
      .err ⟨401, "Invalid credentials"⟩ ∧
    signInUser (fun p h => p == h) [] "ghost@example.com" "pw" =
      signInUser (fun p h => p == h) [sampleNonAdminUser] "user@example.com" "wrong" :=
  signin_uniform_invalid_credentials (fun p h => p == h) [] [sampleNonAdminUser]
    "ghost@example.com" "pw" "user@example.com" "wrong" sampleNonAdminUser
    (by decide) (by decide) rfl (by decide) (by decide) (by decide) (by decide)

end TaskManager
